import Mathlib

/-!
Shallow embedding of the NovaUI stateful controls:

* the Select component (src/components/Select/Select.tsx): option list,
  controlled/uncontrolled value, search filtering, open/close and keyboard
  state machine, selection toggling;
* the Table component (src/components/Table/Table.tsx): three-state column
  sort, pagination slicing and page navigation, row-selection bookkeeping.

JavaScript values appearing in the data model (option values, record
fields) are embedded as the inductive type JSVal; JS truthiness is the
function JSVal.truthy.  Machine floats never arise: all numbers used by
the components as values or indices are integers.
-/

/-- Embedded JavaScript primitive value (undefined, null, number, string).
The components only ever store strings and integer numbers in option
values and record fields. -/
inductive JSVal where
  | undefined
  | jnull
  | num (n : Int)
  | str (s : String)
deriving DecidableEq, Repr

/-- JS truthiness of a primitive value: undefined, null, 0 and the empty
string are falsy. -/
def JSVal.truthy : JSVal → Bool
  | .undefined => false
  | .jnull => false
  | .num n => n != 0
  | .str s => s != ""

/-- The type of the Select value prop: a primitive (string or number, with
the empty string as the single-mode default) or an array of primitives
(multiple mode). -/
inductive SelVal where
  | prim (v : JSVal)
  | arr (vs : List JSVal)
deriving DecidableEq, Repr

/-- JS truthiness of a Select value: arrays are always truthy, primitives
by JSVal.truthy.  Used to embed the defaultValue fallback expression. -/
def SelVal.truthy : SelVal → Bool
  | .prim v => v.truthy
  | .arr _ => true

/-- One entry of the Select options array (icon and description fields are
presentation-only and omitted).  The optional disabled flag defaults to
false, as an absent property is falsy in JS. -/
structure SelectOption where
  value : JSVal
  label : String
  disabled : Bool := false
deriving DecidableEq, Repr

/-- The Select props that the interaction logic reads.  value corresponds
to the controlledValue binding; none embeds an undefined prop. -/
structure SelectProps where
  options : List SelectOption
  value : Option SelVal := none
  defaultValue : Option SelVal := none
  multiple : Bool := false
  searchable : Bool := false
  disabled : Bool := false
  clearable : Bool := false
deriving Repr

/-- The Select component's internal React state: internalValue, isOpen,
searchQuery and focusedIndex (an Int, with -1 as the no-focus sentinel
exactly as in the source). -/
structure SelectState where
  internalValue : SelVal
  isOpen : Bool
  searchQuery : String
  focusedIndex : Int
deriving DecidableEq, Repr

/-- Initial state: internalValue := defaultValue || (multiple ? [] : ''),
closed, empty query, focusedIndex -1. -/
def initSelectState (p : SelectProps) : SelectState :=
  { internalValue :=
      match p.defaultValue with
      | some v => if v.truthy then v else (if p.multiple then .arr [] else .prim (.str ""))
      | none => if p.multiple then .arr [] else .prim (.str "")
    isOpen := false
    searchQuery := ""
    focusedIndex := -1 }

/-- isControlled := controlledValue !== undefined, re-evaluated from the
current props on every render. -/
def isControlled (p : SelectProps) : Bool :=
  p.value.isSome

/-- currentValue := isControlled ? controlledValue : internalValue. -/
def currentValue (p : SelectProps) (st : SelectState) : SelVal :=
  match p.value with
  | some v => v
  | none => st.internalValue

/-- listStarts q s is true when q is a prefix of s (character lists). -/
def listStarts : List Char → List Char → Bool
  | [], _ => true
  | _ :: _, [] => false
  | a :: as, b :: bs => a == b && listStarts as bs

/-- listSub q s is true when q occurs contiguously inside s; this embeds
the JS String.prototype.includes test on the underlying characters. -/
def listSub (q : List Char) : List Char → Bool
  | [] => listStarts q []
  | c :: cs => listStarts q (c :: cs) || listSub q cs

/-- Per-character ASCII lowercasing, embedding toLowerCase for the ASCII
labels the components use. -/
def lowerChars (s : String) : List Char :=
  s.toList.map Char.toLower

/-- Embeds option.label.toLowerCase().includes(query.toLowerCase()). -/
def labelContains (query label : String) : Bool :=
  listSub (lowerChars query) (lowerChars label)

/-- The filtered option list, as a function of searchable and the query:
searchable && searchQuery ? options.filter(label match) : options.
(The JS truthiness of searchQuery is query != "".) -/
def filteredOptionsFn (searchable : Bool) (options : List SelectOption) (query : String) :
    List SelectOption :=
  if searchable && query != "" then
    options.filter (fun o => labelContains query o.label)
  else options

/-- The component's filteredOptions binding. -/
def filteredOptions (p : SelectProps) (st : SelectState) : List SelectOption :=
  filteredOptionsFn p.searchable p.options st.searchQuery

/-- handleValueChange: in uncontrolled mode store the new value, then
invoke onChange with it.  Returns the new internalValue together with the
emitted onChange payload. -/
def handleValueChange (p : SelectProps) (st : SelectState) (newValue : SelVal) :
    SelVal × Option SelVal :=
  ((if isControlled p then st.internalValue else newValue), some newValue)

/-- handleOptionClick: multiple mode toggles membership of the value in
the current array (non-arrays read as []); single mode commits the value
and closes the dropdown.  Returns the updated state and the onChange
payload. -/
def handleOptionClick (p : SelectProps) (st : SelectState) (optionValue : JSVal) :
    SelectState × Option SelVal :=
  if p.multiple then
    let currentArray : List JSVal :=
      match currentValue p st with
      | .arr vs => vs
      | _ => []
    let newValue : SelVal :=
      if currentArray.contains optionValue then
        .arr (currentArray.filter (fun v => v != optionValue))
      else .arr (currentArray ++ [optionValue])
    let r := handleValueChange p st newValue
    ({ st with internalValue := r.1 }, r.2)
  else
    let r := handleValueChange p st (.prim optionValue)
    ({ { st with internalValue := r.1 } with isOpen := false }, r.2)

/-- The user-input events the rendered Select delivers to its handlers. -/
inductive SEvent where
  | triggerClick
  | keyEnter
  | keyEscape
  | keyArrowDown
  | keyArrowUp
  | keySpace
  | clickOutside
  | optionClick (i : Nat)
  | mouseEnterOption (i : Nat)
  | setQuery (q : String)
  | clearClick
deriving DecidableEq, Repr

/-- The clear button is rendered only when clearable and the current value
is a non-empty array (multiple) or truthy primitive (single). -/
def showClearButton (p : SelectProps) (st : SelectState) : Bool :=
  p.clearable &&
    ((p.multiple && (match currentValue p st with
      | .arr vs => !vs.isEmpty
      | _ => false)) ||
     (!p.multiple && (currentValue p st).truthy))

/-- One step of the Select component: the event handlers of the source
(trigger onClick, handleKeyDown, the outside-click listener, per-option
onClick and onMouseEnter, the search input onChange, handleClear), with
render-time guards (an option or the search input can only be hit while
the dropdown is open).  Returns the new state and the onChange payload
emitted during the step, if any. -/
def selectStep (p : SelectProps) (st : SelectState) : SEvent → SelectState × Option SelVal
  | .triggerClick =>
      if p.disabled then (st, none)
      else ({ st with isOpen := !st.isOpen }, none)
  | .keyEnter =>
      if p.disabled then (st, none)
      else
        let fo := filteredOptions p st
        if st.isOpen && 0 ≤ st.focusedIndex && st.focusedIndex < (fo.length : Int) then
          match fo.get? st.focusedIndex.toNat with
          | some o => handleOptionClick p st o.value
          | none => (st, none)
        else ({ st with isOpen := !st.isOpen }, none)
  | .keyEscape =>
      if p.disabled then (st, none)
      else ({ { st with isOpen := false } with focusedIndex := -1 }, none)
  | .keyArrowDown =>
      if p.disabled then (st, none)
      else if !st.isOpen then ({ st with isOpen := true }, none)
      else
        let n : Int := (filteredOptions p st).length
        ({ st with focusedIndex :=
            if st.focusedIndex < n - 1 then st.focusedIndex + 1 else 0 }, none)
  | .keyArrowUp =>
      if p.disabled then (st, none)
      else if st.isOpen then
        let n : Int := (filteredOptions p st).length
        ({ st with focusedIndex :=
            if st.focusedIndex > 0 then st.focusedIndex - 1 else n - 1 }, none)
      else (st, none)
  | .keySpace =>
      if p.disabled then (st, none)
      else if !p.searchable then ({ st with isOpen := !st.isOpen }, none)
      else (st, none)
  | .clickOutside =>
      ({ { { st with isOpen := false } with searchQuery := "" } with focusedIndex := -1 },
        none)
  | .optionClick i =>
      if st.isOpen then
        match (filteredOptions p st).get? i with
        | some o => if o.disabled then (st, none) else handleOptionClick p st o.value
        | none => (st, none)
      else (st, none)
  | .mouseEnterOption i =>
      if st.isOpen && i < (filteredOptions p st).length then
        ({ st with focusedIndex := (i : Int) }, none)
      else (st, none)
  | .setQuery q =>
      if st.isOpen && p.searchable then ({ st with searchQuery := q }, none)
      else (st, none)
  | .clearClick =>
      if showClearButton p st then
        let r := handleValueChange p st (if p.multiple then .arr [] else .prim (.str ""))
        ({ { st with internalValue := r.1 } with searchQuery := "" }, r.2)
      else (st, none)

/-- Run a list of events under fixed props, collecting emitted onChange
payloads in order. -/
def selectRun (p : SelectProps) (st : SelectState) : List SEvent → SelectState × List SelVal
  | [] => (st, [])
  | e :: es =>
      let r := selectStep p st e
      let rest := selectRun p r.1 es
      (rest.1, (match r.2 with | some v => [v] | none => []) ++ rest.2)

/-- Run a list of per-render props paired with events: the props seen by a
step are the props of the render during which the event fires (React
re-reads props on every render). -/
def selectRunP (st : SelectState) : List (SelectProps × SEvent) → SelectState × List SelVal
  | [] => (st, [])
  | pe :: pes =>
      let r := selectStep pe.1 st pe.2
      let rest := selectRunP r.1 pes
      (rest.1, (match r.2 with | some v => [v] | none => []) ++ rest.2)

/-- A table data record: a JS object embedded as an association list from
field names to values; a missing field reads as undefined. -/
def TRecord := List (String × JSVal)
deriving instance DecidableEq, Repr for TRecord

/-- Field access record[k]; absent fields give undefined. -/
def getField (r : TRecord) (k : String) : JSVal :=
  match r.find? (fun kv => kv.1 == k) with
  | some kv => kv.2
  | none => .undefined

/-- The column properties the sorting logic reads (title, render, width and
alignment are presentation-only and omitted).  sortable embeds the JS test
column.sortable !== false, so it defaults to true. -/
structure TColumn where
  key : String
  dataIndex : Option String := none
  sortable : Bool := true
deriving DecidableEq, Repr

/-- Sort direction. -/
inductive SortDir where
  | asc
  | desc
deriving DecidableEq, Repr

/-- The Table's sort state: key: string | null, direction: asc | desc | null. -/
structure SortState where
  key : Option String
  direction : Option SortDir
deriving DecidableEq, Repr

/-- handleSort's setSortState updater: same column cycles asc to desc to
cleared; any other situation (different column, or no direction) starts
that column ascending.  Guarded by the table-level sortable flag. -/
def handleSort (sortable : Bool) (columnKey : String) (prev : SortState) : SortState :=
  if !sortable then prev
  else if prev.key = some columnKey then
    match prev.direction with
    | some .asc => { key := some columnKey, direction := some .desc }
    | some .desc => { key := none, direction := none }
    | none => { key := some columnKey, direction := some .asc }
  else { key := some columnKey, direction := some .asc }

/-- A header click on a column: the onClick handler fires handleSort only
when column.sortable !== false. -/
def headerClick (sortable : Bool) (col : TColumn) (prev : SortState) : SortState :=
  if col.sortable then handleSort sortable col.key prev else prev

/-- Embeds the JS < comparison for the value shapes the sort comparator
meets: numbers compare numerically, strings lexicographically, null
coerces to 0 against numbers; any comparison involving undefined is false
(NaN), and mixed number/string pairs are left incomparable (the
components only sort homogeneous columns). -/
def jsLt : JSVal → JSVal → Bool
  | .num a, .num b => a < b
  | .str a, .str b => a < b
  | .jnull, .num b => 0 < b
  | .num a, .jnull => a < 0
  | _, _ => false

/-- The sort comparator body: find the column for the active key, extract
the field named by dataIndex when that is truthy and by the sort key
otherwise, and compare with JS < and >, negating for descending. -/
def rowCmp (columns : List TColumn) (k : String) (dir : SortDir) (a b : TRecord) : Int :=
  match columns.find? (fun c => c.key == k) with
  | none => 0
  | some col =>
    let fld := match col.dataIndex with
      | some d => if d == "" then k else d
      | none => k
    let av := getField a fld
    let bv := getField b fld
    if jsLt av bv then (match dir with | .asc => -1 | .desc => 1)
    else if jsLt bv av then (match dir with | .asc => 1 | .desc => -1)
    else 0

/-- sortedData: identity when key or direction is falsy (null, or the
empty-string key), otherwise a stable sort of a copy of data by the
comparator (Array.prototype.sort is stable; List.mergeSort keeps the left
element on ties, matching it). -/
def sortedData (columns : List TColumn) (data : List TRecord) (st : SortState) :
    List TRecord :=
  match st.key, st.direction with
  | some k, some dir =>
      if k == "" then data
      else data.mergeSort (fun a b => rowCmp columns k dir a b ≤ 0)
  | _, _ => data

/-- Nat ceiling division, embedding Math.ceil(n / ps) for ps > 0. -/
def ceilNat (n ps : Nat) : Nat := (n + ps - 1) / ps

/-- Math.ceil(sortedData.length / pageSize), as displayed and used by the
pagination buttons.  Note there is no lower clamp to 1. -/
def totalPages (rowCount pageSize : Nat) : Nat := ceilNat rowCount pageSize

/-- The pagination slice: rows.slice((currentPage-1)*pageSize,
(currentPage-1)*pageSize + pageSize). -/
def paginateRows (rows : List TRecord) (pageSize currentPage : Nat) : List TRecord :=
  (rows.drop ((currentPage - 1) * pageSize)).take pageSize

/-- paginatedData: the identity when pagination is off, else the slice. -/
def paginatedData (pagination : Bool) (rows : List TRecord) (pageSize currentPage : Nat) :
    List TRecord :=
  if pagination then paginateRows rows pageSize currentPage else rows

/-- The Next button: disabled when currentPage >= totalPages, otherwise
sets currentPage to min(totalPages, currentPage + 1).  rowCount is the
length of the currently sorted dataset. -/
def nextClick (rowCount pageSize currentPage : Nat) : Nat :=
  if totalPages rowCount pageSize ≤ currentPage then currentPage
  else min (totalPages rowCount pageSize) (currentPage + 1)

/-- The Previous button: disabled when currentPage === 1, otherwise sets
currentPage to max(1, currentPage - 1). -/
def prevClick (currentPage : Nat) : Nat :=
  if currentPage = 1 then currentPage
  else max 1 (currentPage - 1)

/-- getRowKey for a string rowKey prop: record[rowKey] || index, so a
falsy field value (0, empty string, null, undefined, missing) falls back
to the positional index. -/
def getRowKey (rowKey : String) (record : TRecord) (index : Nat) : JSVal :=
  let v := getField record rowKey
  if v.truthy then v else .num index

/-- The toggled key list handleRowSelection builds from the clicked key. -/
def toggleKeys (selectedRowKeys : List JSVal) (key : JSVal) : List JSVal :=
  if selectedRowKeys.contains key then selectedRowKeys.filter (fun k => k != key)
  else selectedRowKeys ++ [key]

/-- The resolved selected rows handleRowSelection passes to
onSelectionChange: data filtered by membership of getRowKey(item, 0) in
the new key list — every record is re-keyed with index 0. -/
def resolvedSelectedRows (rowKey : String) (data : List TRecord)
    (newSelectedKeys : List JSVal) : List TRecord :=
  data.filter (fun item => newSelectedKeys.contains (getRowKey rowKey item 0))

/-- handleRowSelection's payload: the toggled keys and the resolved rows. -/
def handleRowSelection (rowKey : String) (selectedRowKeys : List JSVal)
    (data : List TRecord) (key : JSVal) : List JSVal × List TRecord :=
  let newKeys := toggleKeys selectedRowKeys key
  (newKeys, resolvedSelectedRows rowKey data newKeys)

/-- Which rows of a rendered list have their checkbox checked: row i is
checked when selectedRowKeys contains getRowKey(record, i), the key the
body computes with the row's own index. -/
def checkedRows (rowKey : String) (rows : List TRecord) (selectedRowKeys : List JSVal) :
    List TRecord :=
  (rows.enum.filter
    (fun ir => selectedRowKeys.contains (getRowKey rowKey ir.2 ir.1))).map (fun ir => ir.2)

/-- The fruit option registry used by the repository's tests: Date is
disabled. -/
def fruitOptions : List SelectOption :=
  [{ value := .str "apple", label := "Apple" },
   { value := .str "banana", label := "Banana" },
   { value := .str "cherry", label := "Cherry" },
   { value := .str "date", label := "Date", disabled := true }]

/-- Uncontrolled, single-mode, non-searchable Select props over the fruit
registry. -/
def fruitProps : SelectProps := { options := fruitOptions }

/-- Searchable variant of the fruit props. -/
def searchableProps : SelectProps := { options := fruitOptions, searchable := true }

/-- Controlled variant of the fruit props: the caller supplies value "apple". -/
def controlledProps : SelectProps :=
  { options := fruitOptions, value := some (.prim (.str "apple")) }

/-- A Select state with the dropdown open and the keyboard focus on index 3
(the disabled Date option of the fruit registry). -/
def openFocusedState : SelectState :=
  { internalValue := .prim (.str ""), isOpen := true, searchQuery := "", focusedIndex := 3 }

/-- Three concrete table records (the shrunk dataset of the pagination
example). -/
def rows3 : List TRecord :=
  [[("id", JSVal.num 1)], [("id", JSVal.num 2)], [("id", JSVal.num 3)]]

/-- A record whose id field is the empty string (falsy). -/
def demoRow0 : TRecord := [("id", JSVal.str ""), ("name", JSVal.str "a")]

/-- A second record whose id field is the empty string (falsy). -/
def demoRow1 : TRecord := [("id", JSVal.str ""), ("name", JSVal.str "b")]

/-- A two-row dataset in which every row's id is falsy, so every rendered
row is keyed by its position. -/
def demoRows : List TRecord := [demoRow0, demoRow1]

/-- The pagination events a user can fire; each carries the row count of
the dataset current at that render. -/
inductive PageEvent where
  | nextBtn (rowCount : Nat)
  | prevBtn
deriving DecidableEq, Repr

/-- Run a list of pagination button clicks from a page number. -/
def pageRun (pageSize : Nat) : Nat → List PageEvent → Nat
  | page, [] => page
  | page, (.nextBtn rc) :: es => pageRun pageSize (nextClick rc pageSize page) es
  | page, .prevBtn :: es => pageRun pageSize (prevClick page) es

/-- A searchable-Select state, open with the query "ap" and keyboard focus
on index 0 of the filtered list. -/
def queryOpenState : SelectState :=
  { internalValue := .prim (.str ""), isOpen := true, searchQuery := "ap", focusedIndex := 0 }

theorem listSub_nil (s : List Char) : listSub [] s = true := by
  cases s <;> rfl

theorem labelContains_empty (l : String) : labelContains "" l = true := by
  unfold labelContains
  have h : lowerChars "" = ([] : List Char) := rfl
  rw [h]
  exact listSub_nil _

/-- C8: for every option list and query, the filtered list (with the
searchable flag on, the configuration under which the search filter runs)
equals the filter of the options whose lowercased label contains the
lowercased query; the empty query returns the options unchanged; the
result is an ordered subsequence (sublist) of the input; and membership is
exactly the case-insensitive substring test.  Input mutation is not
representable in this pure embedding, matching the filter's purity. -/
theorem search_filter_spec (options : List SelectOption) (q : String) :
    filteredOptionsFn true options q = options.filter (fun o => labelContains q o.label) ∧
    filteredOptionsFn true options "" = options ∧
    List.Sublist (filteredOptionsFn true options q) options ∧
    (∀ o, o ∈ filteredOptionsFn true options q ↔
      o ∈ options ∧ labelContains q o.label = true) := by
  have hfn : filteredOptionsFn true options q =
      options.filter (fun o => labelContains q o.label) := by
    by_cases hq : q = ""
    · subst hq
      simp only [filteredOptionsFn, bne_self_eq_false, Bool.and_false, if_false]
      exact (List.filter_eq_self.mpr (fun o _ => labelContains_empty o.label)).symm
    · simp [filteredOptionsFn, hq]
  refine ⟨hfn, ?_, ?_, ?_⟩
  · simp [filteredOptionsFn]
  · rw [hfn]; exact List.filter_sublist options
  · intro o
    rw [hfn]
    simp [List.mem_filter]

/-- C5: with table sorting enabled, header clicks on one sortable column
cycle the sort state cleared, ascending, descending, cleared, so after
three clicks sortedData is the original data in input order; and clicking
a different sortable column while any sort on the first column is active
moves directly to the new column ascending. -/
theorem sort_three_click_cycle (cols : List TColumn) (data : List TRecord)
    (c c2 : TColumn) (hc : c.sortable = true) :
    headerClick true c { key := none, direction := none } =
      { key := some c.key, direction := some .asc } ∧
    headerClick true c { key := some c.key, direction := some .asc } =
      { key := some c.key, direction := some .desc } ∧
    headerClick true c { key := some c.key, direction := some .desc } =
      { key := none, direction := none } ∧
    sortedData cols data
      (headerClick true c (headerClick true c
        (headerClick true c { key := none, direction := none }))) = data ∧
    (∀ d : SortState, d.key = some c.key → c2.sortable = true → c2.key ≠ c.key →
      headerClick true c2 d = { key := some c2.key, direction := some .asc }) := by
  have h1 : headerClick true c { key := none, direction := none } =
      { key := some c.key, direction := some .asc } := by
    simp [headerClick, handleSort, hc]
  have h2 : headerClick true c { key := some c.key, direction := some .asc } =
      { key := some c.key, direction := some .desc } := by
    simp [headerClick, handleSort, hc]
  have h3 : headerClick true c { key := some c.key, direction := some .desc } =
      { key := none, direction := none } := by
    simp [headerClick, handleSort, hc]
  refine ⟨h1, h2, h3, ?_, ?_⟩
  · rw [h1, h2, h3]
    rfl
  · intro d hd hc2 hne
    have hne' : ¬d.key = some c2.key := by
      rw [hd]
      simp
      exact fun h => hne h.symm
    simp [headerClick, handleSort, hc2, hne']

/-- Witness for the C5 theorem at a concrete two-column configuration. -/
theorem sort_three_click_cycle_witness :
    headerClick true { key := "name" } { key := none, direction := none } =
      { key := some "name", direction := some .asc } ∧
    headerClick true { key := "name" } { key := some "name", direction := some .asc } =
      { key := some "name", direction := some .desc } ∧
    headerClick true { key := "name" } { key := some "name", direction := some .desc } =
      { key := none, direction := none } ∧
    sortedData [{ key := "name" }, { key := "age" }] rows3
      (headerClick true { key := "name" } (headerClick true { key := "name" }
        (headerClick true { key := "name" } { key := none, direction := none }))) = rows3 ∧
    headerClick true { key := "age" } { key := some "name", direction := some .asc } =
      { key := some "age", direction := some .asc } := by
  have h := sort_three_click_cycle [{ key := "name" }, { key := "age" }] rows3
    { key := "name" } { key := "age" } rfl
  exact ⟨h.1, h.2.1, h.2.2.1, h.2.2.2.1,
    h.2.2.2.2 { key := some "name", direction := some .asc } rfl rfl (by decide)⟩

/-- C7 counterexample: for an empty row list the code's page count is
Math.ceil(0 / pageSize) = 0, not the claimed max(1, ceil) = 1. -/
theorem total_pages_empty_cex :
    totalPages 0 10 = 0 ∧ max 1 (ceilNat 0 10) = 1 ∧ totalPages 0 10 ≠ max 1 (ceilNat 0 10) := by
  refine ⟨rfl, rfl, ?_⟩
  decide

/-- C7 amended: totalPages is ceil(rows / pageSize) with no lower clamp
(0 for an empty row list); for a non-empty row list it agrees with
max(1, ceil).  The visible window is the claimed slice, and the Previous
and Next buttons clamp to the range and are no-ops at the boundaries with
no wraparound. -/
theorem pagination_window_and_clamp (rows : List TRecord) (ps page : Nat)
    (hps : 0 < ps) (hpage : 1 ≤ page) :
    totalPages rows.length ps = ceilNat rows.length ps ∧
    (rows ≠ [] → totalPages rows.length ps = max 1 (ceilNat rows.length ps)) ∧
    paginatedData true rows ps page = (rows.drop ((page - 1) * ps)).take ps ∧
    (totalPages rows.length ps ≤ page → nextClick rows.length ps page = page) ∧
    (page < totalPages rows.length ps → nextClick rows.length ps page = page + 1) ∧
    prevClick 1 = 1 ∧
    (1 < page → prevClick page = page - 1) ∧
    1 ≤ prevClick page ∧
    (page ≤ totalPages rows.length ps → nextClick rows.length ps page ≤ totalPages rows.length ps) := by
  refine ⟨rfl, ?_, rfl, ?_, ?_, rfl, ?_, ?_, ?_⟩
  · intro hne
    have hlen : 1 ≤ rows.length := List.length_pos.mpr hne
    have h1 : 1 ≤ ceilNat rows.length ps := by
      unfold ceilNat
      rw [Nat.le_div_iff_mul_le hps]
      omega
    unfold totalPages
    omega
  · intro h
    unfold nextClick
    simp [h]
  · intro h
    unfold nextClick
    rw [if_neg (by omega)]
    omega
  · intro h
    unfold prevClick
    rw [if_neg (by omega)]
    omega
  · unfold prevClick
    split <;> omega
  · intro h
    unfold nextClick
    split <;> omega

/-- Witness for the C7 amended theorem at three rows, page size 2, page 2. -/
theorem pagination_window_and_clamp_witness :
    totalPages rows3.length 2 = ceilNat rows3.length 2 ∧
    totalPages rows3.length 2 = max 1 (ceilNat rows3.length 2) ∧
    paginatedData true rows3 2 2 = (rows3.drop ((2 - 1) * 2)).take 2 ∧
    nextClick rows3.length 2 2 = 2 ∧
    prevClick 2 = 2 - 1 ∧
    1 ≤ prevClick 2 ∧
    nextClick rows3.length 2 2 ≤ totalPages rows3.length 2 := by
  have h := pagination_window_and_clamp rows3 2 2 (by decide) (by decide)
  exact ⟨h.1, h.2.1 (by decide), h.2.2.1, h.2.2.2.1 (by decide), h.2.2.2.2.2.2.1 (by decide),
    h.2.2.2.2.2.2.2.1, h.2.2.2.2.2.2.2.2 (by decide)⟩

/-- C6 counterexample: with page size 2 and five rows, two Next clicks
reach page 3 (a valid page); when the dataset shrinks to three rows no
code path rewrites currentPage, so the state keeps page 3 while the bound
max(1, ceil(3 / 2)) is 2 — the invariant fails and the visible window of
page 3 over the three remaining rows is empty rather than a clamped page. -/
theorem page_shrink_no_clamp_cex :
    pageRun 2 1 [.nextBtn 5, .nextBtn 5] = 3 ∧
    max 1 (ceilNat 3 2) = 2 ∧
    ¬pageRun 2 1 [.nextBtn 5, .nextBtn 5] ≤ max 1 (ceilNat 3 2) ∧
    paginateRows rows3 2 (pageRun 2 1 [.nextBtn 5, .nextBtn 5]) = [] := by
  refine ⟨rfl, rfl, by decide, rfl⟩

/-- C6 amended: currentPage is written only by the Previous and Next
buttons, and those preserve the invariant 1 ≤ currentPage ≤
max(1, ceil(rowCount / pageSize)) for the dataset current at the click;
no clamping happens when the dataset shrinks, so after a shrink the
invariant can be violated until the next button click. -/
theorem page_invariant_preserved_by_clicks (rc ps page : Nat)
    (h1 : 1 ≤ page) (h2 : page ≤ max 1 (ceilNat rc ps)) :
    (1 ≤ nextClick rc ps page ∧ nextClick rc ps page ≤ max 1 (ceilNat rc ps)) ∧
    (1 ≤ prevClick page ∧ prevClick page ≤ max 1 (ceilNat rc ps)) := by
  unfold nextClick prevClick totalPages
  constructor
  · split <;> constructor <;> omega
  · split <;> constructor <;> omega

/-- Witness for the C6 amended theorem at five rows, page size 2, page 3. -/
theorem page_invariant_preserved_by_clicks_witness :
    (1 ≤ nextClick 5 2 3 ∧ nextClick 5 2 3 ≤ max 1 (ceilNat 5 2)) ∧
    (1 ≤ prevClick 3 ∧ prevClick 3 ≤ max 1 (ceilNat 5 2)) :=
  page_invariant_preserved_by_clicks 5 2 3 (by decide) (by decide)

theorem handleOptionClick_internalValue_controlled (p : SelectProps) (st : SelectState)
    (v : JSVal) (h : isControlled p = true) :
    (handleOptionClick p st v).1.internalValue = st.internalValue := by
  unfold handleOptionClick handleValueChange
  split <;> simp [h]

theorem selectStep_internalValue_controlled (p : SelectProps) (st : SelectState)
    (e : SEvent) (h : isControlled p = true) :
    (selectStep p st e).1.internalValue = st.internalValue := by
  have hoc : ∀ v, (handleOptionClick p st v).1.internalValue = st.internalValue :=
    fun v => handleOptionClick_internalValue_controlled p st v h
  cases e <;> simp only [selectStep] <;> repeat' split
  all_goals simp_all [handleValueChange]

/-- C3: in controlled mode (value supplied and held fixed by the caller,
modelling a change callback that never feeds a value back), every event
sequence — in particular any sequence of toggles — leaves the rendered
selection equal to the externally supplied value, and the internal value
state is never mutated. -/
theorem controlled_selection_never_self_updates (p : SelectProps) (v : SelVal)
    (hv : p.value = some v) (st : SelectState) (es : List SEvent) :
    currentValue p (selectRun p st es).1 = v ∧
    (selectRun p st es).1.internalValue = st.internalValue := by
  have hc : isControlled p = true := by simp [isControlled, hv]
  have hpres : (selectRun p st es).1.internalValue = st.internalValue := by
    induction es generalizing st with
    | nil => rfl
    | cons e es ih =>
        unfold selectRun
        rw [ih (selectStep p st e).1]
        exact selectStep_internalValue_controlled p st e hc
  exact ⟨by simp [currentValue, hv], hpres⟩

/-- Witness for the C3 theorem: a controlled Select over the fruit
registry, opened and toggled twice, still renders the caller's value
"apple" and has an untouched internal value. -/
theorem controlled_selection_never_self_updates_witness :
    currentValue controlledProps
      (selectRun controlledProps (initSelectState controlledProps)
        [.triggerClick, .optionClick 1, .optionClick 1]).1 = .prim (.str "apple") ∧
    (selectRun controlledProps (initSelectState controlledProps)
      [.triggerClick, .optionClick 1, .optionClick 1]).1.internalValue =
      (initSelectState controlledProps).internalValue :=
  controlled_selection_never_self_updates controlledProps (.prim (.str "apple")) rfl
    (initSelectState controlledProps) [.triggerClick, .optionClick 1, .optionClick 1]

/-- C1 counterexample: opening the fruit Select, hovering the disabled
Date option (index 3) and pressing Enter commits it — onChange fires with
the disabled option's value and the uncontrolled selection becomes
"date", so toggling a disabled option via Enter is not a no-op and a
disabled option does become the commit target of Enter. -/
theorem enter_commits_disabled_option_cex :
    (fruitOptions.get? 3).map SelectOption.disabled = some true ∧
    selectRun fruitProps (initSelectState fruitProps)
      [.triggerClick, .mouseEnterOption 3, .keyEnter] =
      ({ internalValue := .prim (.str "date"), isOpen := false, searchQuery := "",
         focusedIndex := 3 }, [.prim (.str "date")]) :=
  ⟨rfl, rfl⟩

/-- C1 amended: clicking a disabled option is a no-op (the rendered
option's onClick is guarded by the option's disabled flag, so the state is
unchanged and onChange is not invoked); but the Enter path of
handleKeyDown commits the focused option through handleOptionClick with
no disabled check, so a disabled option at the focused index does become
the commit target of Enter and its toggle fires onChange. -/
theorem disabled_click_noop_but_enter_commits (p : SelectProps) (st : SelectState)
    (i : Nat) (o : SelectOption) (ho : (filteredOptions p st).get? i = some o) :
    (o.disabled = true → selectStep p st (.optionClick i) = (st, none)) ∧
    (p.disabled = false → st.isOpen = true → st.focusedIndex = (i : Int) →
      selectStep p st .keyEnter = handleOptionClick p st o.value ∧
      ((selectStep p st .keyEnter).2).isSome = true) := by
  constructor
  · intro hdis
    have ho' : (filteredOptions p st)[i]? = some o := by
      rw [← List.get?_eq_getElem?]
      exact ho
    simp only [selectStep]
    cases hop : st.isOpen <;> simp [hop, ho, ho', hdis]
  · intro hd hop hfoc
    have hlen : i < (filteredOptions p st).length := List.get?_eq_some.mp ho |>.1
    have hcond : (st.isOpen && decide (0 ≤ st.focusedIndex) &&
        decide (st.focusedIndex < ((filteredOptions p st).length : Int))) = true := by
      rw [hop, hfoc]
      simp
      exact_mod_cast hlen
    have hnat : st.focusedIndex.toNat = i := by rw [hfoc]; simp
    have hstep : selectStep p st .keyEnter = handleOptionClick p st o.value := by
      simp only [selectStep, hd, if_false, Bool.false_eq_true, hcond, if_true, hnat, ho]
    refine ⟨hstep, ?_⟩
    rw [hstep]
    unfold handleOptionClick handleValueChange
    split <;> simp

/-- Witness for the C1 amended theorem at the open fruit Select with the
disabled Date option focused. -/
theorem disabled_click_noop_but_enter_commits_witness :
    selectStep fruitProps openFocusedState (.optionClick 3) = (openFocusedState, none) ∧
    selectStep fruitProps openFocusedState .keyEnter =
      handleOptionClick fruitProps openFocusedState (.str "date") ∧
    ((selectStep fruitProps openFocusedState .keyEnter).2).isSome = true := by
  have h := disabled_click_noop_but_enter_commits fruitProps openFocusedState 3
    { value := .str "date", label := "Date", disabled := true } rfl
  exact ⟨h.1 rfl, (h.2 rfl rfl (by decide)).1, (h.2 rfl rfl (by decide)).2⟩

/-- C2 counterexample: a reachable run of the searchable fruit Select —
open via trigger click, type the query "ap", press Escape — ends closed
with the query still "ap": the Open to Closed transition by Escape does
not clear the query, contradicting the claim that every close clears it. -/
theorem escape_close_keeps_query_cex :
    (selectRun searchableProps (initSelectState searchableProps)
      [.triggerClick, .setQuery "ap", .keyEscape]).1 =
      { internalValue := .prim (.str ""), isOpen := false, searchQuery := "ap",
        focusedIndex := -1 } ∧
    "ap" ≠ "" :=
  ⟨rfl, by decide⟩

/-- C2 amended: of the four Open to Closed transitions, only click outside
clears the query (and resets the focus); closing via Escape, via a trigger
click, or via a single-mode item commit leaves the query unchanged. -/
theorem query_cleared_only_on_click_outside (p : SelectProps) (st : SelectState) :
    ((selectStep p st .clickOutside).1.isOpen = false ∧
     (selectStep p st .clickOutside).1.searchQuery = "" ∧
     (selectStep p st .clickOutside).1.focusedIndex = -1) ∧
    (p.disabled = false →
      (selectStep p st .keyEscape).1.isOpen = false ∧
      (selectStep p st .keyEscape).1.searchQuery = st.searchQuery) ∧
    (p.disabled = false → st.isOpen = true →
      (selectStep p st .triggerClick).1.isOpen = false ∧
      (selectStep p st .triggerClick).1.searchQuery = st.searchQuery) ∧
    (p.multiple = false → st.isOpen = true →
      ∀ i o, (filteredOptions p st).get? i = some o → o.disabled = false →
        (selectStep p st (.optionClick i)).1.isOpen = false ∧
        (selectStep p st (.optionClick i)).1.searchQuery = st.searchQuery) := by
  refine ⟨⟨rfl, rfl, rfl⟩, ?_, ?_, ?_⟩
  · intro hd
    simp [selectStep, hd]
  · intro hd hop
    simp [selectStep, hd, hop]
  · intro hm hop i o ho hdis
    have ho' : (filteredOptions p st)[i]? = some o := by
      rw [← List.get?_eq_getElem?]
      exact ho
    simp [selectStep, hop, ho', hdis, handleOptionClick, hm, handleValueChange]

/-- Witness for the C2 amended theorem: the searchable fruit Select, open
with query "ap" and focus on index 0 (state reachable as in the
counterexample run plus a hover on Apple). -/
theorem query_cleared_only_on_click_outside_witness :
    ((selectStep searchableProps queryOpenState .clickOutside).1.isOpen = false ∧
     (selectStep searchableProps queryOpenState .clickOutside).1.searchQuery = "" ∧
     (selectStep searchableProps queryOpenState .clickOutside).1.focusedIndex = -1) ∧
    ((selectStep searchableProps queryOpenState .keyEscape).1.isOpen = false ∧
     (selectStep searchableProps queryOpenState .keyEscape).1.searchQuery =
       queryOpenState.searchQuery) ∧
    ((selectStep searchableProps queryOpenState .triggerClick).1.isOpen = false ∧
     (selectStep searchableProps queryOpenState .triggerClick).1.searchQuery =
       queryOpenState.searchQuery) ∧
    ((selectStep searchableProps queryOpenState (.optionClick 0)).1.isOpen = false ∧
     (selectStep searchableProps queryOpenState (.optionClick 0)).1.searchQuery =
       queryOpenState.searchQuery) := by
  have h := query_cleared_only_on_click_outside searchableProps queryOpenState
  refine ⟨h.1, h.2.1 rfl, h.2.2.1 rfl rfl, ?_⟩
  exact h.2.2.2 rfl rfl 0 { value := .str "apple", label := "Apple" } (by decide) rfl

/-- C4 counterexample: an instance created with an external value ("apple"
supplied, so by the claim controlled for its whole lifetime) toggles
Banana under the controlled props without mutating internal state; after
the caller omits the value prop on a later render, the same instance's
next toggle of Cherry mutates internalValue to "cherry" and renders it —
uncontrolled behavior.  The mode is therefore not decided once at
creation: it follows whatever the current render's props supply. -/
theorem controlled_mode_not_latched_cex :
    isControlled controlledProps = true ∧
    isControlled fruitProps = false ∧
    selectRunP (initSelectState controlledProps)
      [(controlledProps, .triggerClick), (controlledProps, .optionClick 1),
       (fruitProps, .triggerClick), (fruitProps, .optionClick 2)] =
      ({ internalValue := .prim (.str "cherry"), isOpen := false, searchQuery := "",
         focusedIndex := -1 },
       [.prim (.str "banana"), .prim (.str "cherry")]) ∧
    currentValue fruitProps
      (selectRunP (initSelectState controlledProps)
        [(controlledProps, .triggerClick), (controlledProps, .optionClick 1),
         (fruitProps, .triggerClick), (fruitProps, .optionClick 2)]).1 =
      .prim (.str "cherry") :=
  ⟨rfl, rfl, rfl, rfl⟩

/-- C4 amended: whether the instance behaves controlled is re-evaluated on
every render from whether the current props supply a value — there is no
creation-time latch.  A step under props that supply a value never touches
internalValue, and a single-mode commit step under props with no value
writes the committed option straight into internalValue, whatever the
props at creation were (the step function receives no creation-time
data). -/
theorem controlled_mode_recomputed_each_render (p : SelectProps) (st : SelectState) :
    (∀ e v, p.value = some v → (selectStep p st e).1.internalValue = st.internalValue) ∧
    (p.value = none → p.multiple = false → st.isOpen = true →
      ∀ i o, (filteredOptions p st).get? i = some o → o.disabled = false →
        (selectStep p st (.optionClick i)).1.internalValue = .prim o.value) := by
  constructor
  · intro e v hv
    exact selectStep_internalValue_controlled p st e (by simp [isControlled, hv])
  · intro hv hm hop i o ho hdis
    have ho' : (filteredOptions p st)[i]? = some o := by
      rw [← List.get?_eq_getElem?]
      exact ho
    simp [selectStep, hop, ho', hdis, handleOptionClick, hm, handleValueChange,
      isControlled, hv]

/-- Witness for the C4 amended theorem: the controlled fruit props leave
internalValue alone on a Banana click, while the same state stepped under
the uncontrolled fruit props commits Cherry into internalValue. -/
theorem controlled_mode_recomputed_each_render_witness :
    (selectStep controlledProps openFocusedState (.optionClick 1)).1.internalValue =
      openFocusedState.internalValue ∧
    (selectStep fruitProps openFocusedState (.optionClick 2)).1.internalValue =
      .prim (.str "cherry") := by
  have h1 := (controlled_mode_recomputed_each_render controlledProps openFocusedState).1
    (.optionClick 1) (.prim (.str "apple")) rfl
  have h2 := (controlled_mode_recomputed_each_render fruitProps openFocusedState).2
    rfl rfl rfl 2 { value := .str "cherry", label := "Cherry" } rfl rfl
  exact ⟨h1, h2⟩

/-- C9 counterexample: the open fruit Select (4 filtered options) at the
initial sentinel focusedIndex -1 moves to index 3 on ArrowUp, but the
claimed formula (focusedIndex - 1 + filteredCount) mod filteredCount gives
(-1 - 1 + 4) mod 4 = 2. -/
theorem arrow_up_sentinel_cex :
    (filteredOptions fruitProps (initSelectState fruitProps)).length = 4 ∧
    (selectRun fruitProps (initSelectState fruitProps)
      [.triggerClick, .keyArrowUp]).1.focusedIndex = 3 ∧
    ((-1 : Int) - 1 + 4) % 4 = 2 ∧
    (3 : Int) ≠ 2 :=
  ⟨rfl, rfl, by decide, by decide⟩

/-- C9 amended: with the dropdown open over a non-empty filtered list of
size n, ArrowDown moves focusedIndex to focusedIndex + 1 when below n - 1
and to 0 otherwise, which agrees with (focusedIndex + 1) mod n for every
index the machine holds in -1..n-1 including the sentinel; ArrowUp moves
to focusedIndex - 1 when above 0 and to n - 1 otherwise, which agrees with
(focusedIndex - 1 + n) mod n on 0..n-1 but lands on n - 1 (the last
option) from the sentinel -1, not on the claimed (-1 - 1 + n) mod n. -/
theorem arrow_navigation_formulas (p : SelectProps) (st : SelectState)
    (hd : p.disabled = false) (hop : st.isOpen = true)
    (n : Int) (hn : n = ((filteredOptions p st).length : Int)) (hpos : 0 < n) :
    ((selectStep p st .keyArrowDown).1.focusedIndex =
        if st.focusedIndex < n - 1 then st.focusedIndex + 1 else 0) ∧
    (-1 ≤ st.focusedIndex → st.focusedIndex ≤ n - 1 →
        (selectStep p st .keyArrowDown).1.focusedIndex = (st.focusedIndex + 1) % n) ∧
    ((selectStep p st .keyArrowUp).1.focusedIndex =
        if st.focusedIndex > 0 then st.focusedIndex - 1 else n - 1) ∧
    (0 ≤ st.focusedIndex → st.focusedIndex ≤ n - 1 →
        (selectStep p st .keyArrowUp).1.focusedIndex = (st.focusedIndex - 1 + n) % n) ∧
    (st.focusedIndex = -1 → (selectStep p st .keyArrowUp).1.focusedIndex = n - 1) := by
  have hdown : (selectStep p st .keyArrowDown).1.focusedIndex =
      if st.focusedIndex < n - 1 then st.focusedIndex + 1 else 0 := by
    subst hn
    simp [selectStep, hd, hop]
  have hup : (selectStep p st .keyArrowUp).1.focusedIndex =
      if st.focusedIndex > 0 then st.focusedIndex - 1 else n - 1 := by
    subst hn
    simp [selectStep, hd, hop]
  refine ⟨hdown, ?_, hup, ?_, ?_⟩
  · intro h1 h2
    rw [hdown]
    by_cases hlt : st.focusedIndex < n - 1
    · rw [if_pos hlt, Int.emod_eq_of_lt (by omega) (by omega)]
    · rw [if_neg hlt, show st.focusedIndex + 1 = n from by omega, Int.emod_self]
  · intro h1 h2
    rw [hup]
    by_cases hgt : st.focusedIndex > 0
    · rw [if_pos hgt, Int.add_emod_self, Int.emod_eq_of_lt (by omega) (by omega)]
    · rw [if_neg hgt, show st.focusedIndex - 1 + n = n - 1 from by omega,
        Int.emod_eq_of_lt (by omega) (by omega)]
  · intro h
    rw [hup, h]
    norm_num

/-- Witness for the C9 amended theorem: the open fruit Select focused on
the last index 3 wraps to 0 on ArrowDown and steps back to 2 on ArrowUp,
matching both modular formulas there. -/
theorem arrow_navigation_formulas_witness :
    (selectStep fruitProps openFocusedState .keyArrowDown).1.focusedIndex =
      (openFocusedState.focusedIndex + 1) % 4 ∧
    (selectStep fruitProps openFocusedState .keyArrowUp).1.focusedIndex =
      (openFocusedState.focusedIndex - 1 + 4) % 4 := by
  have h := arrow_navigation_formulas fruitProps openFocusedState rfl rfl 4
    (by decide) (by decide)
  exact ⟨h.2.1 (by decide) (by decide), h.2.2.2.1 (by decide) (by decide)⟩

/-- C10: with a string rowKey field, a record whose field value is falsy
is keyed by the positional index (record[rowKey] || index); the resolved
rows handleRowSelection reports are computed by re-keying every record
with index 0; and on the concrete two-row dataset with empty-string ids,
checking the second row's checkbox (rendered key 1) resolves to no rows at
all while the checked rows are exactly the second row — the resolved rows
disagree with the rows whose checkboxes are checked. -/
theorem row_key_falsy_fallback (k : String) (record : TRecord) (index : Nat)
    (h : (getField record k).truthy = false) :
    getRowKey k record index = .num index ∧
    (∀ keys data key, handleRowSelection k keys data key =
      (toggleKeys keys key,
       data.filter (fun item => (toggleKeys keys key).contains (getRowKey k item 0)))) ∧
    getRowKey "id" demoRow1 1 = .num 1 ∧
    (handleRowSelection "id" [] demoRows (getRowKey "id" demoRow1 1)).2 = [] ∧
    checkedRows "id" demoRows (toggleKeys [] (getRowKey "id" demoRow1 1)) = [demoRow1] ∧
    (handleRowSelection "id" [] demoRows (getRowKey "id" demoRow1 1)).2 ≠
      checkedRows "id" demoRows (toggleKeys [] (getRowKey "id" demoRow1 1)) := by
  refine ⟨?_, fun keys data key => rfl, rfl, rfl, rfl, by decide⟩
  unfold getRowKey
  simp [h]

/-- Witness for the C10 theorem at a record whose id field is the empty
string. -/
theorem row_key_falsy_fallback_witness :
    getRowKey "id" demoRow0 7 = .num 7 ∧
    (handleRowSelection "id" [] demoRows (getRowKey "id" demoRow1 1)).2 = [] ∧
    checkedRows "id" demoRows (toggleKeys [] (getRowKey "id" demoRow1 1)) = [demoRow1] := by
  have h := row_key_falsy_fallback "id" demoRow0 7 rfl
  exact ⟨h.1, h.2.2.2.1, h.2.2.2.2.1⟩
